import Mathlib

/-!
Verification of the Blaze backtesting engine (backtest.py, backtest_final.py,
backtest_ultra.py, backtest_premium.py).  Outcomes are embedded as an
inductive `Color`, histories as `List Color` (index order = occurrence
order, oldest first, as in the Python lists), confidences and probabilities
as exact rationals, and the random outcome source as an explicit stream
`Nat → Color` consumed at an explicit index, so every function of the
source becomes a pure, executable Lean function.
-/

namespace Blaze

/-- One drawn result of the game: red, black or white. -/
inductive Color
  | red
  | black
  | white
deriving DecidableEq, Repr

/-- A heuristic's proposed action: a color, `skip`, or `cont`
(the `'continue'` string of `strategy_anti_padrao`). -/
inductive Pick
  | red
  | black
  | skip
  | cont
deriving DecidableEq, Repr

/-- Python string equality between a proposed `Pick` and a drawn `Color`
(`actual == predicted_color`): only red/red and black/black agree. -/
def pickEq : Pick → Color → Bool
  | Pick.red, Color.red => true
  | Pick.black, Color.black => true
  | _, _ => false

/-- `'black' if c == 'red' else 'red'` -/
def oppositeC (c : Color) : Pick :=
  if c = Color.red then Pick.black else Pick.red

/-- A color as a pick (used where Python returns the color string itself). -/
def Color.toPick : Color → Pick
  | Color.red => Pick.red
  | Color.black => Pick.black
  | Color.white => Pick.skip

/-- Python slice `l[-n:]`: the last `n` elements (all of `l` when shorter). -/
def lastN (n : Nat) (l : List Color) : List Color :=
  l.drop (l.length - n)

/-- Python loop `while c == ...: streak += 1` over a reversed tail:
number of leading elements satisfying `p`. -/
def countWhile (p : Color → Bool) : List Color → Nat
  | [] => 0
  | x :: xs => if p x then countWhile p xs + 1 else 0

/-- `sum(1 for i in range(len(l)-1) if l[i] != l[i+1])`:
number of adjacent color changes. -/
def changes : List Color → Nat
  | a :: b :: rest => (if a ≠ b then 1 else 0) + changes (b :: rest)
  | _ => 0

/-- `all(l[i] != l[i+1] for i in range(len(l)-1))`: perfect alternation. -/
def altAll : List Color → Bool
  | a :: b :: rest => (a ≠ b) && altAll (b :: rest)
  | _ => true

/-- `[c for c in l if c != 'white']` -/
def nonWhite (l : List Color) : List Color :=
  l.filter (fun c => c ≠ Color.white)

/-- Streak loop of the filters: given the reversed non-white history,
`streak = 1` plus the number of further leading entries equal to the head
(`streak` stays `1` when the list is empty, as in the Python code). -/
def streakOf : List Color → Nat
  | [] => 1
  | c :: rest => 1 + countWhile (fun x => x = c) rest

-- ==================== Outcome generator (all four modules) ====================

def PROB_RED : ℚ := 0.4667
def PROB_BLACK : ℚ := 0.4667
def PROB_WHITE : ℚ := 0.0666

/-- `generate_result` / `generate_blaze_result`, with the uniform draw
`random.random()` made an explicit argument. -/
def generate_result (rand : ℚ) : Color :=
  if rand < PROB_RED then Color.red
  else if rand < PROB_RED + PROB_BLACK then Color.black
  else Color.white

-- ==================== Martingale ladder loop ====================

/-- The inner martingale loop of `simulate_with_martingale` /
`simulate_final` / `simulate_ultra`: `for mg in range(fuel): actual =
next(); if actual == predicted: won at mg; break`.  Outcomes come from the
stream `gen` starting at index `idx`; the result is the ladder level of the
first matching outcome, or `none` when the ladder is exhausted. -/
def mgRun (p : Pick) (gen : Nat → Color) (idx : Nat) : Nat → Option Nat
  | 0 => none
  | fuel + 1 =>
      if pickEq p (gen idx) then some 0
      else (mgRun p gen (idx + 1) fuel).map (· + 1)

/-- Number of outcomes the martingale loop draws from the stream. -/
def mgConsumed (p : Pick) (gen : Nat → Color) (idx fuel : Nat) : Nat :=
  match mgRun p gen idx fuel with
  | some l => l + 1
  | none => fuel

/-- The `n` outcomes a stream yields from index `idx` (these are the
outcomes the simulation drivers append to the history). -/
def draws (gen : Nat → Color) (idx n : Nat) : List Color :=
  (List.range n).map (fun j => gen (idx + j))

-- ==================== backtest.py: v2 strategies ====================

/-- `strategy_tendencia_v2(history, lookback=15)` -/
def strategy_tendencia_v2 (history : List Color) (lookback : Nat) : Pick × ℚ :=
  if history.length < lookback then (Pick.red, 50)
  else
    let recent := lastN lookback history
    let red_count := recent.count Color.red
    let black_count := recent.count Color.black
    let total := red_count + black_count
    if total = 0 then (Pick.red, 50)
    else
      let red_pct : ℚ := (red_count : ℚ) / (total : ℚ)
      if 0.60 ≤ red_pct then (Pick.red, min (50 + (red_pct - 0.5) * 80) 90)
      else if red_pct ≤ 0.40 then (Pick.black, min (50 + (0.5 - red_pct) * 80) 90)
      else (if black_count ≤ red_count then Pick.red else Pick.black, 55)

/-- `strategy_reversao_v2(history, min_streak=4)` -/
def strategy_reversao_v2 (history : List Color) (min_streak : Nat) : Pick × ℚ :=
  if history.length < 5 then (Pick.red, 50)
  else
    match history.reverse with
    | [] => (Pick.red, 50)
    | last_color :: rest =>
      if last_color = Color.white then (Pick.red, 55)
      else
        let streak := 1 + countWhile (fun c => c = last_color ∧ c ≠ Color.white) rest
        if min_streak ≤ streak then
          (oppositeC last_color, 60 + min (((streak - min_streak : Nat) : ℚ) * 5) 25)
        else (Pick.red, 50)

/-- `strategy_padrao_duplo(history)` -/
def strategy_padrao_duplo (history : List Color) : Pick × ℚ :=
  if history.length < 6 then (Pick.red, 50)
  else
    let p22 :=
      match lastN 6 history with
      | [a, a', b, b', c, c'] =>
          if a = a' ∧ b = b' ∧ c = c' ∧ a ≠ b ∧ b ≠ c then some (oppositeC c') else none
      | _ => none
    match p22 with
    | some col => (col, 72)
    | none =>
      let p33 :=
        match lastN 9 history with
        | [a, a', a'', b, b', b'', c, c', c''] =>
            if a = a' ∧ a' = a'' ∧ b = b' ∧ b' = b'' ∧ c = c' ∧ c' = c'' ∧ a ≠ b ∧ b ≠ c
            then some (oppositeC c'') else none
        | _ => none
      match p33 with
      | some col => (col, 75)
      | none => (Pick.red, 50)

/-- `strategy_equilibrio_forcado(history, window=30)` -/
def strategy_equilibrio_forcado (history : List Color) (window : Nat) : Pick × ℚ :=
  if history.length < window then (Pick.red, 50)
  else
    let recent := lastN window history
    let red_count := recent.count Color.red
    let black_count := recent.count Color.black
    let total := red_count + black_count
    if total = 0 then (Pick.red, 50)
    else
      let expected : ℚ := (total : ℚ) / 2
      let red_dev : ℚ := (red_count : ℚ) - expected
      let black_dev : ℚ := (black_count : ℚ) - expected
      if 5 < red_dev then (Pick.black, 55 + min (red_dev * 2) 30)
      else if 5 < black_dev then (Pick.red, 55 + min (black_dev * 2) 30)
      else (Pick.red, 50)

/-- `strategy_anti_padrao(history)` -/
def strategy_anti_padrao (history : List Color) : Pick × ℚ :=
  if history.length < 10 then (Pick.skip, 0)
  else
    let last_10 := lastN 10 history
    let red_count := last_10.count Color.red
    let black_count := last_10.count Color.black
    let white_count := last_10.count Color.white
    if 2 ≤ white_count then (Pick.skip, 0)
    else if ((red_count : ℤ) - black_count).natAbs ≤ 1 then (Pick.skip, 0)
    else (Pick.cont, 100)

/-- `strategy_momentum(history)` -/
def strategy_momentum (history : List Color) : Pick × ℚ :=
  if history.length < 8 then (Pick.red, 50)
  else
    match lastN 3 history with
    | [a, b, c] =>
        if a = b ∧ b = c ∧ a ≠ Color.white then (a.toPick, 68)
        else if a ≠ b ∧ b ≠ c then (oppositeC c, 65)
        else (Pick.red, 50)
    | _ => (Pick.red, 50)

-- ==================== Weighted vote tallies ====================

/-- One heuristic's contribution to color `c`'s tally in the strict
combiners (`final_combined_strategy`, `ultra_combined`): a heuristic
reporting `(col, conf)` with weight `w` adds `conf/100 * w` to its own
color when `col` is red or black and `conf` reaches the per-heuristic
minimum `m`, and nothing otherwise. -/
def contribution (m : ℚ) (c : Pick) (e : ℚ × Pick × ℚ) : ℚ :=
  if (e.2.1 = Pick.red ∨ e.2.1 = Pick.black) ∧ m ≤ e.2.2 ∧ e.2.1 = c
  then e.2.2 / 100 * e.1 else 0

/-- `votes[c]` of the strict combiners over a list of
(weight, color, confidence) heuristic outputs. -/
def voteTally (m : ℚ) (es : List (ℚ × Pick × ℚ)) (c : Pick) : ℚ :=
  (es.map (contribution m c)).sum

/-- One heuristic's vote contribution in `combined_strategy_v2`, which has
no per-heuristic confidence minimum. -/
def contributionV2 (c : Pick) (e : ℚ × Pick × ℚ) : ℚ :=
  if (e.2.1 = Pick.red ∨ e.2.1 = Pick.black) ∧ e.2.1 = c
  then e.2.2 / 100 * e.1 else 0

/-- `votes[c]` of `combined_strategy_v2`. -/
def voteTallyV2 (es : List (ℚ × Pick × ℚ)) (c : Pick) : ℚ :=
  (es.map (contributionV2 c)).sum

/-- One update step of the best-individual-signal tracking of
`combined_strategy_v2` (`if confidence > best_confidence`, inside the
red/black guard). -/
def bestStepV2 (b : Pick × ℚ × String) (e : String × ℚ × Pick × ℚ) :
    Pick × ℚ × String :=
  if (e.2.2.1 = Pick.red ∨ e.2.2.1 = Pick.black) ∧ b.2.1 < e.2.2.2
  then (e.2.2.1, e.2.2.2, e.1) else b

/-- Best-individual-signal tracking of `combined_strategy_v2`:
folds to (color, confidence, strategy name). -/
def bestSigV2 (es : List (String × ℚ × Pick × ℚ)) : Pick × ℚ × String :=
  es.foldl bestStepV2 (Pick.skip, 0, "combined")

/-- One update step of the best-signal tracking of the strict combiners,
where the update also requires the per-heuristic confidence minimum `m`. -/
def bestStepMin (m : ℚ) (b : Pick × ℚ × String) (e : String × ℚ × Pick × ℚ) :
    Pick × ℚ × String :=
  if (e.2.2.1 = Pick.red ∨ e.2.2.1 = Pick.black) ∧ m ≤ e.2.2.2 ∧ b.2.1 < e.2.2.2
  then (e.2.2.1, e.2.2.2, e.1) else b

/-- Best-signal tracking of the strict combiners. -/
def bestSigMin (m : ℚ) (es : List (String × ℚ × Pick × ℚ)) : Pick × ℚ × String :=
  es.foldl (bestStepMin m) (Pick.skip, 0, "none")

/-- `combined_strategy_v2(history)`: returns (color, confidence, strategy). -/
def combined_strategy_v2 (history : List Color) : Pick × ℚ × String :=
  if history.length < 10 then (Pick.red, 50, "default")
  else
    let anti := strategy_anti_padrao history
    if anti.1 = Pick.skip then
      ((strategy_equilibrio_forcado history 30).1, 55, "equilibrio_conservador")
    else
      let sigs : List (String × ℚ × Pick × ℚ) :=
        [("tendencia", 1.2, strategy_tendencia_v2 history 15),
         ("reversao", 1.5, strategy_reversao_v2 history 4),
         ("padrao_duplo", 1.8, strategy_padrao_duplo history),
         ("equilibrio", 1.0, strategy_equilibrio_forcado history 30),
         ("momentum", 1.1, strategy_momentum history)]
      let ws := sigs.map (fun e => e.2)
      let vr := voteTallyV2 ws Pick.red
      let vb := voteTallyV2 ws Pick.black
      let best := bestSigV2 sigs
      let total := vr + vb
      if total = 0 then (Pick.red, 50, "default")
      else
        let red_pct := vr / total
        if 0.60 ≤ red_pct then
          (Pick.red, min (50 + (red_pct - 0.5) * 80) 92, best.2.2)
        else if red_pct ≤ 0.40 then
          (Pick.black, min (50 + (0.5 - red_pct) * 80) 92, best.2.2)
        else if 65 ≤ best.2.1 then (best.1, best.2.1, best.2.2)
        else (if vb ≤ vr then Pick.red else Pick.black, 55, "low_confidence")

-- ==================== backtest_final.py ====================

/-- `advanced_filter(history)`: the strict filter gate of the "final"
variant; conditions are tried in the fixed source order and the first
match wins. -/
def advanced_filter (history : List Color) : Bool × String :=
  if history.length < 20 then (true, "histórico_insuficiente")
  else
    let last_20 := lastN 20 history
    let last_10 := lastN 10 history
    if 2 ≤ last_20.count Color.white then (true, "branco_recente")
    else
      let red_20 := last_20.count Color.red
      let black_20 := last_20.count Color.black
      let total_20 := red_20 + black_20
      if 0 < total_20 ∧ |(red_20 : ℚ) - (black_20 : ℚ)| / (total_20 : ℚ) < 0.15 then
        (true, "equilibrado")
      else if 14 ≤ changes last_20 then (true, "caótico")
      else if 6 ≤ streakOf (nonWhite history.reverse) then (true, "sequência_longa")
      else
        let nw := nonWhite last_10
        if 8 ≤ nw.length ∧ altAll nw then (true, "alternância")
        else (false, "ok")

/-- `calc_red_ratio(lst)` of `final_trend_strategy`. -/
def redShare (lst : List Color) : ℚ :=
  if lst = [] then 0.5 else (lst.count Color.red : ℚ) / (lst.length : ℚ)

/-- `final_trend_strategy(history)` -/
def final_trend_strategy (history : List Color) : Pick × ℚ :=
  if history.length < 40 then (Pick.skip, 0)
  else
    let tf5 := nonWhite (lastN 5 history)
    let tf10 := nonWhite (lastN 10 history)
    let tf20 := nonWhite (lastN 20 history)
    let tf40 := nonWhite (lastN 40 history)
    if tf5 = [] ∨ tf10 = [] ∨ tf20 = [] ∨ tf40 = [] then (Pick.skip, 0)
    else
      let score := redShare tf5 * 0.40 + redShare tf10 * 0.30 +
                   redShare tf20 * 0.20 + redShare tf40 * 0.10
      if 0.62 ≤ score then (Pick.red, min (60 + (score - 0.5) * 150) 90)
      else if score ≤ 0.38 then (Pick.black, min (60 + (0.5 - score) * 150) 90)
      else (Pick.skip, 0)

/-- `final_reversal_strategy(history)` -/
def final_reversal_strategy (history : List Color) : Pick × ℚ :=
  if history.length < 15 then (Pick.skip, 0)
  else
    let nw := nonWhite history
    if nw.length < 10 then (Pick.skip, 0)
    else
      match nw.reverse with
      | [] => (Pick.skip, 0)
      | last :: rest =>
        let streak := 1 + countWhile (fun c => c = last) rest
        if 4 ≤ streak then
          let opposite := oppositeC last
          let last_30 := nonWhite (lastN 30 history)
          let oppShare : ℚ :=
            if last_30 = [] then 0.5
            else ((last_30.filter (fun c => pickEq opposite c)).length : ℚ) /
                 (last_30.length : ℚ)
          if oppShare < 0.40 then
            (opposite, min (65 + ((streak - 4 : Nat) : ℚ) * 5 + (0.5 - oppShare) * 40) 88)
          else
            (opposite, min (60 + ((streak - 4 : Nat) : ℚ) * 4) 80)
        else (Pick.skip, 0)

/-- `final_pattern_strategy(history)` -/
def final_pattern_strategy (history : List Color) : Pick × ℚ :=
  if history.length < 12 then (Pick.skip, 0)
  else
    let nw := nonWhite (lastN 12 history)
    if nw.length < 8 then (Pick.skip, 0)
    else
      let p22 :=
        match lastN 6 nw with
        | [a, a', b, b', c, c'] =>
            if a = a' ∧ b = b' ∧ c = c' ∧ a ≠ b ∧ b ≠ c
            then some (if c' = Color.black then Pick.red else Pick.black) else none
        | _ => none
      match p22 with
      | some col => (col, 78)
      | none =>
        let p33 :=
          match lastN 9 nw with
          | [a, a', a'', b, b', b'', c, c', c''] =>
              if a = a' ∧ a' = a'' ∧ b = b' ∧ b' = b'' ∧ c = c' ∧ c' = c'' ∧ a ≠ b ∧ b ≠ c
              then some (if c'' = Color.black then Pick.red else Pick.black) else none
          | _ => none
        match p33 with
        | some col => (col, 80)
        | none => (Pick.skip, 0)

/-- `final_combined_strategy(history)`: returns
(color, confidence, strategy, should_enter). -/
def final_combined_strategy (history : List Color) : Pick × ℚ × String × Bool :=
  let fr := advanced_filter history
  if fr.1 then (Pick.skip, 0, fr.2, false)
  else
    let sigs : List (String × ℚ × Pick × ℚ) :=
      [("trend", 1.0, final_trend_strategy history),
       ("reversal", 1.3, final_reversal_strategy history),
       ("pattern", 1.5, final_pattern_strategy history)]
    let ws := sigs.map (fun e => e.2)
    let vr := voteTally 60 ws Pick.red
    let vb := voteTally 60 ws Pick.black
    let confs := (ws.filter
      (fun e => (e.2.1 = Pick.red ∨ e.2.1 = Pick.black) ∧ 60 ≤ e.2.2)).map
      (fun e => e.2.2)
    let best := bestSigMin 60 sigs
    let total := vr + vb
    if total = 0 then (Pick.skip, 0, "sem_sinal", false)
    else
      let red_share := vr / total
      let avg_conf : ℚ := if confs = [] then 60 else confs.sum / (confs.length : ℚ)
      if 0.70 ≤ red_share then (Pick.red, min (avg_conf + 5) 92, best.2.2, true)
      else if red_share ≤ 0.30 then (Pick.black, min (avg_conf + 5) 92, best.2.2, true)
      else if 75 ≤ best.2.1 then (best.1, best.2.1, best.2.2, true)
      else (Pick.skip, 0, "consenso_baixo", false)

-- ==================== backtest_ultra.py ====================

/-- Trend direction used by `ultra_filter`'s condition 6. -/
inductive Trend
  | tred
  | tblack
  | tneutral
deriving DecidableEq, Repr

/-- `ultra_filter(colors)`: the filter gate of the "ultra" variant. -/
def ultra_filter (colors : List Color) : Bool × String :=
  if colors.length < 30 then (true, "histórico_insuficiente")
  else
    let last_20 := lastN 20 colors
    let last_10 := lastN 10 colors
    let last_5 := lastN 5 colors
    if 1 ≤ (lastN 15 colors).count Color.white then (true, "branco_recente")
    else
      let red_20 := last_20.count Color.red
      let black_20 := last_20.count Color.black
      let total_20 := red_20 + black_20
      if 0 < total_20 ∧ |(red_20 : ℚ) - (black_20 : ℚ)| / (total_20 : ℚ) < 0.20 then
        (true, "equilibrado")
      else if 13 ≤ changes last_20 then (true, "caótico")
      else if 6 ≤ streakOf (nonWhite colors).reverse then (true, "sequência_longa")
      else
        let nw_10 := nonWhite last_10
        if 7 ≤ nw_10.length ∧ altAll nw_10 then (true, "alternância_perfeita")
        else
          let red_5 := last_5.count Color.red
          let red_10 := last_10.count Color.red
          let trend_5 := if 3 ≤ red_5 then Trend.tred
                         else if red_5 ≤ 2 then Trend.tblack else Trend.tneutral
          let trend_10 := if 6 ≤ red_10 then Trend.tred
                          else if red_10 ≤ 4 then Trend.tblack else Trend.tneutral
          if trend_5 ≠ Trend.tneutral ∧ trend_10 ≠ Trend.tneutral ∧ trend_5 ≠ trend_10
          then (true, "tendência_contraditória")
          else (false, "ok")

/-- `get_ratio(n)` of `ultra_trend`: red share of the non-white tail of
length `n`. -/
def ultraShare (colors : List Color) (n : Nat) : ℚ :=
  let subset := nonWhite (lastN n colors)
  if subset = [] then 0.5 else (subset.count Color.red : ℚ) / (subset.length : ℚ)

/-- `ultra_trend(colors)` -/
def ultra_trend (colors : List Color) : Pick × ℚ :=
  if colors.length < 50 then (Pick.skip, 0)
  else
    let r5 := ultraShare colors 5
    let r10 := ultraShare colors 10
    let r20 := ultraShare colors 20
    let r30 := ultraShare colors 30
    let r50 := ultraShare colors 50
    let score := r5 * 0.35 + r10 * 0.25 + r20 * 0.20 + r30 * 0.12 + r50 * 0.08
    if 0.65 ≤ score then
      if 0.6 ≤ r5 ∧ 0.55 ≤ r10 ∧ 0.52 ≤ r20 then
        (Pick.red, min (70 + (score - 0.5) * 100) 92)
      else (Pick.skip, 0)
    else if score ≤ 0.35 then
      if r5 ≤ 0.4 ∧ r10 ≤ 0.45 ∧ r20 ≤ 0.48 then
        (Pick.black, min (70 + (0.5 - score) * 100) 92)
      else (Pick.skip, 0)
    else (Pick.skip, 0)

/-- `ultra_reversal(colors)` -/
def ultra_reversal (colors : List Color) : Pick × ℚ :=
  if colors.length < 20 then (Pick.skip, 0)
  else
    let nw := nonWhite colors
    if nw.length < 15 then (Pick.skip, 0)
    else
      match nw.reverse with
      | [] => (Pick.skip, 0)
      | last :: rest =>
        let streak := 1 + countWhile (fun c => c = last) rest
        if streak = 4 ∨ streak = 5 then
          let opposite := oppositeC last
          let last_40 := nonWhite (lastN 40 colors)
          if last_40 ≠ [] then
            let oppShare : ℚ :=
              ((last_40.filter (fun c => pickEq opposite c)).length : ℚ) /
              (last_40.length : ℚ)
            if oppShare < 0.42 then
              (opposite, min (72 + ((streak - 4 : Nat) : ℚ) * 5 + (0.5 - oppShare) * 50) 90)
            else (Pick.skip, 0)
          else (Pick.skip, 0)
        else (Pick.skip, 0)

/-- `ultra_pattern(colors)` -/
def ultra_pattern (colors : List Color) : Pick × ℚ :=
  if colors.length < 15 then (Pick.skip, 0)
  else
    let nw := nonWhite (lastN 15 colors)
    if nw.length < 10 then (Pick.skip, 0)
    else
      let p2222 :=
        match lastN 8 nw with
        | [a, a', b, b', c, c', d, d'] =>
            if a = a' ∧ b = b' ∧ c = c' ∧ d = d' ∧ a ≠ b ∧ b ≠ c ∧ c ≠ d
            then some (if d' = Color.black then Pick.red else Pick.black) else none
        | _ => none
      match p2222 with
      | some col => (col, 85)
      | none =>
        let p33 :=
          match lastN 9 nw with
          | [a, a', a'', b, b', b'', c, c', c''] =>
              if a = a' ∧ a' = a'' ∧ b = b' ∧ b' = b'' ∧ c = c' ∧ c' = c'' ∧ a ≠ b ∧ b ≠ c
              then some (if c'' = Color.black then Pick.red else Pick.black) else none
          | _ => none
        match p33 with
        | some col => (col, 88)
        | none => (Pick.skip, 0)

/-- `ultra_combined(colors)`: returns (color, confidence, strategy,
should_enter). -/
def ultra_combined (colors : List Color) : Pick × ℚ × String × Bool :=
  let fr := ultra_filter colors
  if fr.1 then (Pick.skip, 0, fr.2, false)
  else
    let sigs : List (String × ℚ × Pick × ℚ) :=
      [("trend", 1.0, ultra_trend colors),
       ("reversal", 1.3, ultra_reversal colors),
       ("pattern", 2.0, ultra_pattern colors)]
    let ws := sigs.map (fun e => e.2)
    let vr := voteTally 70 ws Pick.red
    let vb := voteTally 70 ws Pick.black
    let valid := sigs.filter
      (fun e => (e.2.2.1 = Pick.red ∨ e.2.2.1 = Pick.black) ∧ 70 ≤ e.2.2.2)
    let best := bestSigMin 70 sigs
    if valid = [] then (Pick.skip, 0, "sem_sinal_forte", false)
    else
      let total := vr + vb
      if total = 0 then (Pick.skip, 0, "sem_votos", false)
      else
        let red_share := vr / total
        let avg_conf : ℚ := ((valid.map (fun e => e.2.2.2)).sum) / (valid.length : ℚ)
        let reds := (valid.filter (fun e => e.2.2.1 = Pick.red)).length
        let blacks := (valid.filter (fun e => e.2.2.1 = Pick.black)).length
        if 0.75 ≤ red_share ∧ (2 ≤ reds ∨ 85 ≤ best.2.1) then
          (Pick.red, min (avg_conf + 3) 95, best.2.2, true)
        else if red_share ≤ 0.25 ∧ (2 ≤ blacks ∨ 85 ≤ best.2.1) then
          (Pick.black, min (avg_conf + 3) 95, best.2.2, true)
        else if 85 ≤ best.2.1 then (best.1, best.2.1, best.2.2, true)
        else (Pick.skip, 0, "consenso_insuficiente", false)

-- ==================== backtest_premium.py ====================

/-- `detect_high_confidence_pattern(colors)`: returns
(color, confidence, pattern name). -/
def detect_high_confidence_pattern (colors : List Color) : Pick × ℚ × String :=
  if colors.length < 30 then (Pick.skip, 0, "histórico_insuficiente")
  else
    let nw := nonWhite colors
    if nw.length < 25 then (Pick.skip, 0, "dados_insuficientes")
    else
      let last_30 := lastN 30 nw
      let last_20 := lastN 20 nw
      let last_10 := lastN 10 nw
      let last_5 := lastN 5 nw
      let p1 :=
        match nw.reverse with
        | [] => none
        | last_color :: rest =>
          let streak := 1 + countWhile (fun c => c = last_color) rest
          if streak = 4 ∨ streak = 5 then
            let opposite := oppositeC last_color
            let oppShare : ℚ :=
              ((last_30.filter (fun c => pickEq opposite c)).length : ℚ) /
              (last_30.length : ℚ)
            if oppShare < 0.38 then
              some (opposite,
                min (78 + (0.5 - oppShare) * 80 + ((streak - 4 : Nat) : ℚ) * 3) 95,
                "reversão_forte_" ++ toString streak ++ "x")
            else none
          else none
      match p1 with
      | some r => r
      | none =>
        let p22 :=
          if 10 ≤ nw.length then
            match lastN 8 nw with
            | [a, a', b, b', c, c', d, d'] =>
                if a = a' ∧ b = b' ∧ c = c' ∧ d = d' ∧ a ≠ b ∧ b ≠ c ∧ c ≠ d
                then some ((if d' = Color.black then Pick.red else Pick.black),
                           (88 : ℚ), "padrão_2-2")
                else none
            | _ => none
          else none
        match p22 with
        | some r => r
        | none =>
          let p33 :=
            if 12 ≤ nw.length then
              match lastN 9 nw with
              | [a, a', a'', b, b', b'', c, c', c''] =>
                  if a = a' ∧ a' = a'' ∧ b = b' ∧ b' = b'' ∧ c = c' ∧ c' = c'' ∧
                     a ≠ b ∧ b ≠ c
                  then some ((if c'' = Color.black then Pick.red else Pick.black),
                             (90 : ℚ), "padrão_3-3")
                  else none
              | _ => none
            else none
          match p33 with
          | some r => r
          | none =>
            let red_5 := last_5.count Color.red
            let red_10 := last_10.count Color.red
            let red_20 := last_20.count Color.red
            let red_30 := last_30.count Color.red
            if 4 ≤ red_5 ∧ 7 ≤ red_10 ∧ 13 ≤ red_20 ∧ 19 ≤ red_30 then
              (Pick.red, 85, "tendência_vermelha_total")
            else if red_5 ≤ 1 ∧ red_10 ≤ 3 ∧ red_20 ≤ 7 ∧ red_30 ≤ 11 then
              (Pick.black, 85, "tendência_preta_total")
            else
              let red_share_30 : ℚ := (red_30 : ℚ) / 30
              if red_share_30 < 0.33 ∧ 2 ≤ red_5 then
                (Pick.red, 80, "correção_vermelha")
              else if 0.67 < red_share_30 ∧ red_5 ≤ 3 then
                (Pick.black, 80, "correção_preta")
              else (Pick.skip, 0, "sem_padrão_forte")

/-- `premium_filter(colors)` -/
def premium_filter (colors : List Color) : Bool × String :=
  if colors.length < 25 then (true, "histórico_insuficiente")
  else if 1 ≤ (lastN 10 colors).count Color.white then (true, "branco_recente")
  else if 11 ≤ changes (lastN 15 colors) then (true, "caótico")
  else (false, "ok")

/-- `premium_strategy(colors)`: returns (color, confidence, pattern,
should_enter). -/
def premium_strategy (colors : List Color) : Pick × ℚ × String × Bool :=
  let fr := premium_filter colors
  if fr.1 then (Pick.skip, 0, fr.2, false)
  else
    let d := detect_high_confidence_pattern colors
    if d.1 = Pick.skip ∨ d.2.1 < 78 then (Pick.skip, 0, d.2.2, false)
    else (d.1, d.2.1, d.2.2, true)

-- ==================== Simulation drivers ====================

/-- `stats` accumulator of `simulate_final`. -/
structure FinalStats where
  entries : Nat
  wins : Nat
  losses : Nat
  skipped : Nat
  win_levels : List Nat
deriving DecidableEq, Repr

/-- `{'entries': 0, 'wins': 0, 'losses': 0, 'skipped': 0,
'win_levels': [0,0,0,0,0]}` -/
def initFinalStats : FinalStats :=
  { entries := 0, wins := 0, losses := 0, skipped := 0,
    win_levels := [0, 0, 0, 0, 0] }

/-- `stats['win_levels'][mg] += 1` -/
def incAt : List Nat → Nat → List Nat
  | [], _ => []
  | x :: xs, 0 => (x + 1) :: xs
  | x :: xs, n + 1 => x :: incAt xs n

/-- The game loop of `simulate_final(n_games, max_mg)`, with the random
source made an explicit stream `gen` consumed at index `idx`.  Per game:
run the combiner; on a veto append one drawn outcome and count a skip;
otherwise run the martingale ladder (`max_mg + 1` outcomes at most),
append every drawn outcome to the history, and count the win (with its
ladder level) or the loss. -/
def simulate_final_go (gen : Nat → Color) (max_mg : Nat) :
    Nat → Nat → List Color → FinalStats → FinalStats
  | 0, _, _, stats => stats
  | n + 1, idx, history, stats =>
    let d := final_combined_strategy history
    if d.2.2.2 = false then
      simulate_final_go gen max_mg n (idx + 1) (history ++ [gen idx])
        { stats with skipped := stats.skipped + 1 }
    else
      match mgRun d.1 gen idx (max_mg + 1) with
      | some l =>
          simulate_final_go gen max_mg n (idx + l + 1)
            (history ++ draws gen idx (l + 1))
            { stats with entries := stats.entries + 1, wins := stats.wins + 1,
                         win_levels := incAt stats.win_levels l }
      | none =>
          simulate_final_go gen max_mg n (idx + max_mg + 1)
            (history ++ draws gen idx (max_mg + 1))
            { stats with entries := stats.entries + 1, losses := stats.losses + 1 }

/-- `simulate_final(n_games, max_mg)`: seeds the history with the first
100 stream outcomes (`generate_history(100)`) and runs the game loop. -/
def simulate_final (gen : Nat → Color) (n_games max_mg : Nat) : FinalStats :=
  simulate_final_go gen max_mg n_games 100 (draws gen 0 100) initFinalStats

/-- `stats` accumulator of `simulate_ultra`. -/
structure UltraStats where
  entries : Nat
  wins : Nat
  losses : Nat
  skipped : Nat
  win_principal : Nat
  win_mg1 : Nat
  win_mg2 : Nat
deriving DecidableEq, Repr

def initUltraStats : UltraStats :=
  { entries := 0, wins := 0, losses := 0, skipped := 0,
    win_principal := 0, win_mg1 := 0, win_mg2 := 0 }

/-- `if mg == 0 ... elif mg == 1 ... else ...` of `simulate_ultra`. -/
def ultraWinAt (stats : UltraStats) (l : Nat) : UltraStats :=
  match l with
  | 0 => { stats with win_principal := stats.win_principal + 1 }
  | 1 => { stats with win_mg1 := stats.win_mg1 + 1 }
  | _ => { stats with win_mg2 := stats.win_mg2 + 1 }

/-- The game loop of `simulate_ultra(n_games)`: fixed 2-martingale ladder
(`for mg in range(3)`). -/
def simulate_ultra_go (gen : Nat → Color) :
    Nat → Nat → List Color → UltraStats → UltraStats
  | 0, _, _, stats => stats
  | n + 1, idx, history, stats =>
    let d := ultra_combined history
    if d.2.2.2 = false then
      simulate_ultra_go gen n (idx + 1) (history ++ [gen idx])
        { stats with skipped := stats.skipped + 1 }
    else
      match mgRun d.1 gen idx 3 with
      | some l =>
          simulate_ultra_go gen n (idx + l + 1) (history ++ draws gen idx (l + 1))
            (ultraWinAt { stats with entries := stats.entries + 1,
                                     wins := stats.wins + 1 } l)
      | none =>
          simulate_ultra_go gen n (idx + 3) (history ++ draws gen idx 3)
            { stats with entries := stats.entries + 1, losses := stats.losses + 1 }

/-- `simulate_ultra(n_games)` -/
def simulate_ultra (gen : Nat → Color) (n_games : Nat) : UltraStats :=
  simulate_ultra_go gen n_games 100 (draws gen 0 100) initUltraStats

-- ==================== Helper lemmas ====================

lemma advanced_filter_ok (h : List Color) :
    (advanced_filter h).1 = false → (advanced_filter h).2 = "ok" := by
  simp only [advanced_filter]
  split_ifs <;> simp

lemma ultra_filter_ok (h : List Color) :
    (ultra_filter h).1 = false → (ultra_filter h).2 = "ok" := by
  simp only [ultra_filter]
  split_ifs <;> simp

lemma premium_filter_ok (h : List Color) :
    (premium_filter h).1 = false → (premium_filter h).2 = "ok" := by
  simp only [premium_filter]
  split_ifs <;> simp

lemma final_combined_veto (h : List Color) (hf : (advanced_filter h).1 = true) :
    final_combined_strategy h = (Pick.skip, 0, (advanced_filter h).2, false) := by
  simp [final_combined_strategy, hf]

lemma ultra_combined_veto (h : List Color) (hf : (ultra_filter h).1 = true) :
    ultra_combined h = (Pick.skip, 0, (ultra_filter h).2, false) := by
  simp [ultra_combined, hf]

lemma premium_strategy_veto (h : List Color) (hf : (premium_filter h).1 = true) :
    premium_strategy h = (Pick.skip, 0, (premium_filter h).2, false) := by
  simp [premium_strategy, hf]

-- ==================== C1 ====================

/-- C1: on any history where the filter gate of a strict combiner fires,
`final_combined_strategy`, `ultra_combined` and `premium_strategy` return
the skip decision (enter = false, confidence 0) carrying exactly the
gate's reason — the reason of the first matching condition in the gate's
fixed priority order — and when no condition matches the gates return
`(false, "ok")`, letting the combiner proceed to the heuristics. -/
theorem claim1_filter_gate_veto (h : List Color) :
    ((advanced_filter h).1 = true →
      final_combined_strategy h = (Pick.skip, 0, (advanced_filter h).2, false)) ∧
    ((ultra_filter h).1 = true →
      ultra_combined h = (Pick.skip, 0, (ultra_filter h).2, false)) ∧
    ((premium_filter h).1 = true →
      premium_strategy h = (Pick.skip, 0, (premium_filter h).2, false)) ∧
    ((advanced_filter h).1 = false → (advanced_filter h).2 = "ok") ∧
    ((ultra_filter h).1 = false → (ultra_filter h).2 = "ok") ∧
    ((premium_filter h).1 = false → (premium_filter h).2 = "ok") := by
  exact ⟨final_combined_veto h, ultra_combined_veto h, premium_strategy_veto h,
    advanced_filter_ok h, ultra_filter_ok h, premium_filter_ok h⟩

/-- C1 witness: the empty history trips the insufficient-history condition
of all three gates, and each strict combiner returns that reason. -/
theorem claim1_filter_gate_veto_witness :
    final_combined_strategy [] = (Pick.skip, 0, (advanced_filter []).2, false) ∧
    ultra_combined [] = (Pick.skip, 0, (ultra_filter []).2, false) ∧
    premium_strategy [] = (Pick.skip, 0, (premium_filter []).2, false) := by
  exact ⟨(claim1_filter_gate_veto []).1 (by decide),
    (claim1_filter_gate_veto []).2.1 (by decide),
    (claim1_filter_gate_veto []).2.2.1 (by decide)⟩

-- ==================== C3 ====================

/-- C3: below its minimum window a heuristic returns its documented
neutral default and never picks a color from the data:
`final_trend_strategy` returns `(skip, 0)` for histories shorter than 40,
and `strategy_tendencia_v2` returns its constant neutral default
`(red, 50)` for histories shorter than its lookback; being total Lean
functions, neither can raise. -/
theorem claim3_insufficient_history_defaults (h : List Color) (lookback : Nat) :
    (h.length < 40 → final_trend_strategy h = (Pick.skip, 0)) ∧
    (h.length < lookback → strategy_tendencia_v2 h lookback = (Pick.red, 50)) := by
  constructor
  · intro hlt
    unfold final_trend_strategy
    rw [if_pos hlt]
  · intro hlt
    unfold strategy_tendencia_v2
    rw [if_pos hlt]

/-- C3 witness: instantiated at the empty history and lookback 15. -/
theorem claim3_insufficient_history_defaults_witness :
    final_trend_strategy [] = (Pick.skip, 0) ∧
    strategy_tendencia_v2 [] 15 = (Pick.red, 50) :=
  ⟨(claim3_insufficient_history_defaults [] 15).1 (by decide),
   (claim3_insufficient_history_defaults [] 15).2 (by decide)⟩

-- ==================== C4 ====================

/-- C4: the combiners are deterministic pure functions of the history —
two calls on identical histories yield identical decisions; no hidden
state or randomness occurs anywhere in the decision path (the embedding of
`ultra_combined`, `final_combined_strategy` and `combined_strategy_v2`
consumes no random source). -/
theorem claim4_combiner_deterministic (h₁ h₂ : List Color) (he : h₁ = h₂) :
    ultra_combined h₁ = ultra_combined h₂ ∧
    final_combined_strategy h₁ = final_combined_strategy h₂ ∧
    combined_strategy_v2 h₁ = combined_strategy_v2 h₂ := by
  subst he
  exact ⟨rfl, rfl, rfl⟩

/-- C4 witness: instantiated at the empty history. -/
theorem claim4_combiner_deterministic_witness :
    ultra_combined [] = ultra_combined [] ∧
    final_combined_strategy [] = final_combined_strategy [] ∧
    combined_strategy_v2 [] = combined_strategy_v2 [] :=
  claim4_combiner_deterministic [] [] rfl

-- ==================== C2 ====================

lemma mgRun_some_spec (p : Pick) (gen : Nat → Color) :
    ∀ (fuel idx l : Nat), mgRun p gen idx fuel = some l →
      l < fuel ∧ pickEq p (gen (idx + l)) = true ∧
      ∀ j, j < l → pickEq p (gen (idx + j)) = false := by
  intro fuel
  induction fuel with
  | zero => intro idx l hr; simp [mgRun] at hr
  | succ fuel ih =>
    intro idx l hr
    by_cases hp : pickEq p (gen idx) = true
    · simp [mgRun, hp] at hr
      subst hr
      exact ⟨Nat.succ_pos _, by simpa using hp, fun j hj => absurd hj (Nat.not_lt_zero j)⟩
    · simp [mgRun, hp] at hr
      obtain ⟨l', hl', rfl⟩ := hr
      obtain ⟨h1, h2, h3⟩ := ih (idx + 1) l' hl'
      refine ⟨by omega, by rw [show idx + (l' + 1) = idx + 1 + l' by omega]; exact h2, ?_⟩
      intro j hj
      cases j with
      | zero => simpa using eq_false_of_ne_true hp
      | succ j' =>
        rw [show idx + (j' + 1) = idx + 1 + j' by omega]
        exact h3 j' (by omega)

lemma mgRun_none_spec (p : Pick) (gen : Nat → Color) :
    ∀ (fuel idx : Nat), mgRun p gen idx fuel = none →
      ∀ j, j < fuel → pickEq p (gen (idx + j)) = false := by
  intro fuel
  induction fuel with
  | zero => intro idx _ j hj; omega
  | succ fuel ih =>
    intro idx hr j hj
    by_cases hp : pickEq p (gen idx) = true
    · simp [mgRun, hp] at hr
    · simp [mgRun, hp] at hr
      cases j with
      | zero => simpa using eq_false_of_ne_true hp
      | succ j' =>
        rw [show idx + (j' + 1) = idx + 1 + j' by omega]
        exact ih (idx + 1) hr j' (by omega)

lemma mgConsumed_le (p : Pick) (gen : Nat → Color) (idx fuel : Nat) :
    mgConsumed p gen idx fuel ≤ fuel := by
  unfold mgConsumed
  cases hr : mgRun p gen idx fuel with
  | none => exact Nat.le_refl fuel
  | some l => exact (mgRun_some_spec p gen fuel idx l hr).1

/-- C2: the martingale ladder with `maxLevels = 2` and decision color Red,
fed the outcome stream `[Black, Black, Red]`, records a win at ladder
level 2 after consuming exactly 3 outcomes, and fed `[Black, Black,
Black]` records a loss after consuming exactly 3 (= maxLevels + 1)
outcomes; in general the ladder consumes at most `maxLevels + 1` outcomes
from the stream and stops at the first outcome equal to the decision
color (no earlier outcome matches, the winning one does). -/
theorem claim2_martingale_ladder :
    (mgRun Pick.red (fun i => [Color.black, Color.black, Color.red].getD i Color.red) 0 3
       = some 2 ∧
     mgConsumed Pick.red (fun i => [Color.black, Color.black, Color.red].getD i Color.red) 0 3
       = 3) ∧
    (mgRun Pick.red (fun i => [Color.black, Color.black, Color.black].getD i Color.black) 0 3
       = none ∧
     mgConsumed Pick.red (fun i => [Color.black, Color.black, Color.black].getD i Color.black) 0 3
       = 3) ∧
    (∀ (p : Pick) (gen : Nat → Color) (idx maxLevels : Nat),
       mgConsumed p gen idx (maxLevels + 1) ≤ maxLevels + 1) ∧
    (∀ (p : Pick) (gen : Nat → Color) (idx maxLevels l : Nat),
       mgRun p gen idx (maxLevels + 1) = some l →
       l ≤ maxLevels ∧ pickEq p (gen (idx + l)) = true ∧
       ∀ j, j < l → pickEq p (gen (idx + j)) = false) ∧
    (∀ (p : Pick) (gen : Nat → Color) (idx maxLevels : Nat),
       mgRun p gen idx (maxLevels + 1) = none →
       ∀ j, j ≤ maxLevels → pickEq p (gen (idx + j)) = false) := by
  refine ⟨⟨by decide, by decide⟩, ⟨by decide, by decide⟩,
    fun p gen idx m => mgConsumed_le p gen idx (m + 1), ?_, ?_⟩
  · intro p gen idx m l hr
    obtain ⟨h1, h2, h3⟩ := mgRun_some_spec p gen (m + 1) idx l hr
    exact ⟨by omega, h2, h3⟩
  · intro p gen idx m hr j hj
    exact mgRun_none_spec p gen (m + 1) idx hr j (by omega)

/-- C2 witness: the general ladder bounds instantiated on the winning
stream of the claim. -/
theorem claim2_martingale_ladder_witness :
    mgRun Pick.red (fun i => [Color.black, Color.black, Color.red].getD i Color.red) 0 3
      = some 2 ∧
    (2 ≤ 2 ∧
     pickEq Pick.red ((fun i => [Color.black, Color.black, Color.red].getD i Color.red) (0 + 2))
       = true ∧
     ∀ j, j < 2 →
       pickEq Pick.red ((fun i => [Color.black, Color.black, Color.red].getD i Color.red) (0 + j))
         = false) :=
  ⟨by decide,
   claim2_martingale_ladder.2.2.2.1 Pick.red
     (fun i => [Color.black, Color.black, Color.red].getD i Color.red) 0 2 2 (by decide)⟩

-- ==================== C5 ====================

lemma contribution_mono (m w c₁ c₂ : ℚ) (col : Pick)
    (hm : 0 ≤ m) (hw : 0 ≤ w) (hc : c₁ ≤ c₂) :
    contribution m col (w, col, c₁) ≤ contribution m col (w, col, c₂) := by
  unfold contribution
  by_cases hcol : col = Pick.red ∨ col = Pick.black
  · by_cases h1 : m ≤ c₁
    · rw [if_pos ⟨hcol, h1, rfl⟩, if_pos ⟨hcol, le_trans h1 hc, rfl⟩]
      have : c₁ / 100 ≤ c₂ / 100 := by linarith
      exact mul_le_mul_of_nonneg_right this hw
    · rw [if_neg (by tauto)]
      by_cases h2 : m ≤ c₂
      · rw [if_pos ⟨hcol, h2, rfl⟩]
        have hc2 : 0 ≤ c₂ := le_trans hm h2
        positivity
      · rw [if_neg (by tauto)]
  · rw [if_neg (by tauto), if_neg (by tauto)]

lemma contributionV2_mono (w c₁ c₂ : ℚ) (col : Pick)
    (hw : 0 ≤ w) (hc : c₁ ≤ c₂) :
    contributionV2 col (w, col, c₁) ≤ contributionV2 col (w, col, c₂) := by
  unfold contributionV2
  by_cases hcol : col = Pick.red ∨ col = Pick.black
  · rw [if_pos ⟨hcol, rfl⟩, if_pos ⟨hcol, rfl⟩]
    have : c₁ / 100 ≤ c₂ / 100 := by linarith
    exact mul_le_mul_of_nonneg_right this hw
  · rw [if_neg (by tauto), if_neg (by tauto)]

/-- C5: in the weighted vote of the combiners, raising one heuristic's
reported confidence (its weight, its chosen color, and every other
heuristic's output held fixed) never decreases the vote tally of that
heuristic's chosen color — both for the strict tally with a per-heuristic
minimum (`voteTally`, used by `final_combined_strategy` and
`ultra_combined`) and for the thresholdless tally of
`combined_strategy_v2` (`voteTallyV2`). -/
theorem claim5_vote_monotonicity (m w c₁ c₂ : ℚ) (col : Pick)
    (pre post : List (ℚ × Pick × ℚ))
    (hm : 0 ≤ m) (hw : 0 ≤ w) (hc : c₁ ≤ c₂) :
    voteTally m (pre ++ (w, col, c₁) :: post) col ≤
      voteTally m (pre ++ (w, col, c₂) :: post) col ∧
    voteTallyV2 (pre ++ (w, col, c₁) :: post) col ≤
      voteTallyV2 (pre ++ (w, col, c₂) :: post) col := by
  constructor
  · unfold voteTally
    rw [List.map_append, List.map_append, List.sum_append, List.sum_append,
      List.map_cons, List.map_cons, List.sum_cons, List.sum_cons]
    have := contribution_mono m w c₁ c₂ col hm hw hc
    linarith
  · unfold voteTallyV2
    rw [List.map_append, List.map_append, List.sum_append, List.sum_append,
      List.map_cons, List.map_cons, List.sum_cons, List.sum_cons]
    have := contributionV2_mono w c₁ c₂ col hw hc
    linarith

/-- C5 witness: raising a red pattern signal's confidence from 60 to 80 at
minimum 60 and weight 1.5 does not lower red's tally. -/
theorem claim5_vote_monotonicity_witness :
    voteTally 60 ([] ++ (1.5, Pick.red, 60) :: [(1.0, Pick.black, 70)]) Pick.red ≤
      voteTally 60 ([] ++ (1.5, Pick.red, 80) :: [(1.0, Pick.black, 70)]) Pick.red ∧
    voteTallyV2 ([] ++ (1.5, Pick.red, 60) :: [(1.0, Pick.black, 70)]) Pick.red ≤
      voteTallyV2 ([] ++ (1.5, Pick.red, 80) :: [(1.0, Pick.black, 70)]) Pick.red :=
  claim5_vote_monotonicity 60 1.5 60 80 Pick.red [] [(1.0, Pick.black, 70)]
    (by norm_num) (by norm_num) (by norm_num)

-- ==================== C6 ====================

/-- C6: the shipped probability constants happen to sum exactly to 1, but
the code performs no validation whatsoever: `generate_result` is total
and unconditionally produces one of the three outcomes for every possible
uniform draw — there is no `ConfigurationError` and no failure path
anywhere in the generator. -/
theorem claim6_generator_unvalidated :
    PROB_RED + PROB_BLACK + PROB_WHITE = 1 ∧
    ∀ rand : ℚ, generate_result rand = Color.red ∨
      generate_result rand = Color.black ∨ generate_result rand = Color.white := by
  constructor
  · norm_num [PROB_RED, PROB_BLACK, PROB_WHITE]
  · intro rand
    unfold generate_result
    split_ifs <;> simp

-- ==================== C7 ====================

/-- C7 counterexample: on the history of exactly 6 identical Red outcomes
named by the claim, the filter gates of both strict variants fire their
insufficient-history condition (the history is below the 20- resp.
30-outcome minimum window), not the long-streak condition, so the claimed
reason "sequência_longa" is not produced. -/
theorem claim7_counterexample :
    advanced_filter (List.replicate 6 Color.red) = (true, "histórico_insuficiente") ∧
    ultra_filter (List.replicate 6 Color.red) = (true, "histórico_insuficiente") ∧
    (advanced_filter (List.replicate 6 Color.red)).2 ≠ "sequência_longa" ∧
    (ultra_filter (List.replicate 6 Color.red)).2 ≠ "sequência_longa" := by
  refine ⟨by decide, by decide, by decide, by decide⟩

/-- A 20-outcome history ending in a same-color run of 6 Reds, meeting the
final variant's minimum window. -/
def histStreakFinal : List Color :=
  List.replicate 14 Color.black ++ List.replicate 6 Color.red

/-- A 30-outcome history ending in a same-color run of 6 Reds, meeting the
ultra variant's minimum window. -/
def histStreakUltra : List Color :=
  List.replicate 24 Color.black ++ List.replicate 6 Color.red

lemma advanced_filter_histStreakFinal :
    advanced_filter histStreakFinal = (true, "sequência_longa") := by
  have hlen : histStreakFinal.length = 20 := by decide
  have hw : List.count Color.white (lastN 20 histStreakFinal) = 0 := by decide
  have hr : List.count Color.red (lastN 20 histStreakFinal) = 6 := by decide
  have hb : List.count Color.black (lastN 20 histStreakFinal) = 14 := by decide
  have hch : changes (lastN 20 histStreakFinal) = 1 := by decide
  have hs : streakOf (nonWhite histStreakFinal.reverse) = 6 := by decide
  simp only [advanced_filter, hlen, hw, hr, hb, hch, hs]
  norm_num

lemma ultra_filter_histStreakUltra :
    ultra_filter histStreakUltra = (true, "sequência_longa") := by
  have hlen : histStreakUltra.length = 30 := by decide
  have hw : List.count Color.white (lastN 15 histStreakUltra) = 0 := by decide
  have hr : List.count Color.red (lastN 20 histStreakUltra) = 6 := by decide
  have hb : List.count Color.black (lastN 20 histStreakUltra) = 14 := by decide
  have hch : changes (lastN 20 histStreakUltra) = 1 := by decide
  have hs : streakOf (nonWhite histStreakUltra).reverse = 6 := by decide
  simp only [ultra_filter, hlen, hw, hr, hb, hch, hs]
  norm_num

/-- C7 amended: on a history of only 6 Red outcomes the combiner still
skips, but with the insufficient-history reason; the long-streak
condition (threshold ≥ 6) fires — and forces the combiner to skip with
reason "sequência_longa" regardless of any heuristic — once the history
also meets the gate's minimum window, e.g. 14 Blacks followed by the run
of 6 Reds for `advanced_filter` (20 outcomes) and 24 Blacks followed by
the 6 Reds for `ultra_filter` (30 outcomes). -/
theorem claim7_amended :
    final_combined_strategy (List.replicate 6 Color.red)
      = (Pick.skip, 0, "histórico_insuficiente", false) ∧
    advanced_filter histStreakFinal = (true, "sequência_longa") ∧
    final_combined_strategy histStreakFinal
      = (Pick.skip, 0, "sequência_longa", false) ∧
    ultra_filter histStreakUltra = (true, "sequência_longa") ∧
    ultra_combined histStreakUltra
      = (Pick.skip, 0, "sequência_longa", false) := by
  refine ⟨by decide, advanced_filter_histStreakFinal, ?_,
    ultra_filter_histStreakUltra, ?_⟩
  · rw [final_combined_veto histStreakFinal
      (by rw [advanced_filter_histStreakFinal]),
      advanced_filter_histStreakFinal]
  · rw [ultra_combined_veto histStreakUltra
      (by rw [ultra_filter_histStreakUltra]),
      ultra_filter_histStreakUltra]

-- ==================== C8 ====================

/-- C8: a history exhibiting the exact period-2 pattern AABBCCDD — e.g.
`[R,R,B,B,R,R,B,B]` — makes each variant's pattern heuristic (on a
history meeting that heuristic's minimum window) propose the color that
continues the alternation, Red after a Black pair, with confidence at
least 72. -/
theorem claim8_pattern_period2 :
    strategy_padrao_duplo
        [Color.red, Color.red, Color.black, Color.black,
         Color.red, Color.red, Color.black, Color.black] = (Pick.red, 72) ∧
    final_pattern_strategy
        [Color.red, Color.red, Color.black, Color.black,
         Color.red, Color.red, Color.black, Color.black,
         Color.red, Color.red, Color.black, Color.black] = (Pick.red, 78) ∧
    ultra_pattern
        [Color.red, Color.red, Color.black, Color.black,
         Color.red, Color.red, Color.black, Color.black,
         Color.red, Color.red, Color.black, Color.black,
         Color.red, Color.red, Color.black, Color.black] = (Pick.red, 85) ∧
    (72 : ℚ) ≤ 72 ∧ (72 : ℚ) ≤ 78 ∧ (72 : ℚ) ≤ 85 := by
  refine ⟨by decide, by decide, by decide, by norm_num, by norm_num, by norm_num⟩

-- ==================== C9 ====================

lemma incAt_length (ls : List Nat) (l : Nat) : (incAt ls l).length = ls.length := by
  induction ls generalizing l with
  | nil => rfl
  | cons x xs ih =>
    cases l with
    | zero => rfl
    | succ n => simp [incAt, ih]

lemma incAt_sum (ls : List Nat) (l : Nat) (hl : l < ls.length) :
    (incAt ls l).sum = ls.sum + 1 := by
  induction ls generalizing l with
  | nil => simp at hl
  | cons x xs ih =>
    cases l with
    | zero => simp [incAt]; omega
    | succ n =>
      simp [incAt, ih n (by simpa using hl)]
      omega

/-- The bookkeeping invariant of `simulate_final`'s accumulator. -/
def FinalInv (s : FinalStats) (played : Nat) : Prop :=
  s.wins + s.losses = s.entries ∧ s.entries + s.skipped = played ∧
  s.win_levels.sum = s.wins ∧ s.win_levels.length = 5

lemma simulate_final_go_inv (gen : Nat → Color) (max_mg : Nat) (hmg : max_mg ≤ 4) :
    ∀ (n idx : Nat) (hist : List Color) (s : FinalStats) (k : Nat),
      FinalInv s k → FinalInv (simulate_final_go gen max_mg n idx hist s) (k + n) := by
  intro n
  induction n with
  | zero => intro idx hist s k hs; exact hs
  | succ n ih =>
    intro idx hist s k hs
    obtain ⟨h1, h2, h3, h4⟩ := hs
    rw [simulate_final_go]
    by_cases hskip : (final_combined_strategy hist).2.2.2 = false
    · rw [if_pos hskip]
      have := ih (idx + 1) (hist ++ [gen idx])
        { s with skipped := s.skipped + 1 } (k + 1) ⟨h1, by simp; omega, h3, h4⟩
      rw [show k + (n + 1) = k + 1 + n by omega]
      exact this
    · rw [if_neg hskip]
      cases hr : mgRun (final_combined_strategy hist).1 gen idx (max_mg + 1) with
      | some l =>
        have hl : l < max_mg + 1 :=
          (mgRun_some_spec _ gen (max_mg + 1) idx l hr).1
        have hlt : l < s.win_levels.length := by omega
        have := ih (idx + l + 1) (hist ++ draws gen idx (l + 1))
          { s with entries := s.entries + 1, wins := s.wins + 1,
                   win_levels := incAt s.win_levels l } (k + 1)
          ⟨by simp; omega, by simp; omega,
           by simp [incAt_sum s.win_levels l hlt]; omega,
           by simp [incAt_length]; omega⟩
        rw [show k + (n + 1) = k + 1 + n by omega]
        exact this
      | none =>
        have := ih (idx + max_mg + 1) (hist ++ draws gen idx (max_mg + 1))
          { s with entries := s.entries + 1, losses := s.losses + 1 } (k + 1)
          ⟨by simp; omega, by simp; omega, by simp; omega, by simp; omega⟩
        rw [show k + (n + 1) = k + 1 + n by omega]
        exact this

/-- The bookkeeping invariant of `simulate_ultra`'s accumulator. -/
def UltraInv (s : UltraStats) (played : Nat) : Prop :=
  s.wins + s.losses = s.entries ∧ s.entries + s.skipped = played ∧
  s.win_principal + s.win_mg1 + s.win_mg2 = s.wins

lemma ultraWinAt_fields (s : UltraStats) (l : Nat) :
    (ultraWinAt s l).entries = s.entries ∧ (ultraWinAt s l).wins = s.wins ∧
    (ultraWinAt s l).losses = s.losses ∧ (ultraWinAt s l).skipped = s.skipped ∧
    (ultraWinAt s l).win_principal + (ultraWinAt s l).win_mg1 + (ultraWinAt s l).win_mg2
      = s.win_principal + s.win_mg1 + s.win_mg2 + 1 := by
  match l with
  | 0 => refine ⟨rfl, rfl, rfl, rfl, by simp [ultraWinAt]; omega⟩
  | 1 => refine ⟨rfl, rfl, rfl, rfl, by simp [ultraWinAt]; omega⟩
  | Nat.succ (Nat.succ _) => refine ⟨rfl, rfl, rfl, rfl, by simp [ultraWinAt]; omega⟩

lemma simulate_ultra_go_inv (gen : Nat → Color) :
    ∀ (n idx : Nat) (hist : List Color) (s : UltraStats) (k : Nat),
      UltraInv s k → UltraInv (simulate_ultra_go gen n idx hist s) (k + n) := by
  intro n
  induction n with
  | zero => intro idx hist s k hs; exact hs
  | succ n ih =>
    intro idx hist s k hs
    obtain ⟨h1, h2, h3⟩ := hs
    rw [simulate_ultra_go]
    by_cases hskip : (ultra_combined hist).2.2.2 = false
    · rw [if_pos hskip]
      have := ih (idx + 1) (hist ++ [gen idx])
        { s with skipped := s.skipped + 1 } (k + 1) ⟨h1, by simp; omega, h3⟩
      rw [show k + (n + 1) = k + 1 + n by omega]
      exact this
    · rw [if_neg hskip]
      cases hr : mgRun (ultra_combined hist).1 gen idx 3 with
      | some l =>
        obtain ⟨f1, f2, f3, f4, f5⟩ := ultraWinAt_fields
          { s with entries := s.entries + 1, wins := s.wins + 1 } l
        have := ih (idx + l + 1) (hist ++ draws gen idx (l + 1))
          (ultraWinAt { s with entries := s.entries + 1, wins := s.wins + 1 } l)
          (k + 1)
          ⟨by rw [f1, f2, f3]; simp; omega,
           by rw [f1, f4]; simp; omega,
           by rw [f2, f5]; simp; omega⟩
        rw [show k + (n + 1) = k + 1 + n by omega]
        exact this
      | none =>
        have := ih (idx + 3) (hist ++ draws gen idx 3)
          { s with entries := s.entries + 1, losses := s.losses + 1 } (k + 1)
          ⟨by simp; omega, by simp; omega, by simp; omega⟩
        rw [show k + (n + 1) = k + 1 + n by omega]
        exact this

/-- C9: after a run of `n_games` decision points the statistics
accumulator satisfies wins + losses = entries, entries + skipped =
n_games, and the per-ladder-level win counters sum to wins — for
`simulate_final` (whose five-slot `win_levels` list requires
`max_mg ≤ 4`, the only values the source uses) and for `simulate_ultra`
(principal/mg1/mg2 counters), for every `n_games ≥ 0`. -/
theorem claim9_stats_invariants (gen : Nat → Color) (n_games max_mg : Nat)
    (hmg : max_mg ≤ 4) :
    ((simulate_final gen n_games max_mg).wins +
       (simulate_final gen n_games max_mg).losses =
       (simulate_final gen n_games max_mg).entries ∧
     (simulate_final gen n_games max_mg).entries +
       (simulate_final gen n_games max_mg).skipped = n_games ∧
     (simulate_final gen n_games max_mg).win_levels.sum =
       (simulate_final gen n_games max_mg).wins) ∧
    ((simulate_ultra gen n_games).wins + (simulate_ultra gen n_games).losses =
       (simulate_ultra gen n_games).entries ∧
     (simulate_ultra gen n_games).entries + (simulate_ultra gen n_games).skipped =
       n_games ∧
     (simulate_ultra gen n_games).win_principal + (simulate_ultra gen n_games).win_mg1 +
       (simulate_ultra gen n_games).win_mg2 = (simulate_ultra gen n_games).wins) := by
  constructor
  · have := simulate_final_go_inv gen max_mg hmg n_games 100 (draws gen 0 100)
      initFinalStats 0 ⟨rfl, rfl, rfl, rfl⟩
    obtain ⟨h1, h2, h3, _⟩ := this
    exact ⟨h1, by simpa using h2, h3⟩
  · have := simulate_ultra_go_inv gen n_games 100 (draws gen 0 100)
      initUltraStats 0 ⟨rfl, rfl, rfl⟩
    obtain ⟨h1, h2, h3⟩ := this
    exact ⟨h1, by simpa using h2, h3⟩

/-- C9 witness: the invariants instantiated on an all-Red stream, 3 games,
4 martingale levels. -/
theorem claim9_stats_invariants_witness :
    ((simulate_final (fun _ => Color.red) 3 4).wins +
       (simulate_final (fun _ => Color.red) 3 4).losses =
       (simulate_final (fun _ => Color.red) 3 4).entries ∧
     (simulate_final (fun _ => Color.red) 3 4).entries +
       (simulate_final (fun _ => Color.red) 3 4).skipped = 3 ∧
     (simulate_final (fun _ => Color.red) 3 4).win_levels.sum =
       (simulate_final (fun _ => Color.red) 3 4).wins) ∧
    ((simulate_ultra (fun _ => Color.red) 3).wins +
       (simulate_ultra (fun _ => Color.red) 3).losses =
       (simulate_ultra (fun _ => Color.red) 3).entries ∧
     (simulate_ultra (fun _ => Color.red) 3).entries +
       (simulate_ultra (fun _ => Color.red) 3).skipped = 3 ∧
     (simulate_ultra (fun _ => Color.red) 3).win_principal +
       (simulate_ultra (fun _ => Color.red) 3).win_mg1 +
       (simulate_ultra (fun _ => Color.red) 3).win_mg2 =
       (simulate_ultra (fun _ => Color.red) 3).wins) :=
  claim9_stats_invariants (fun _ => Color.red) 3 4 (by norm_num)

-- ==================== C10 ====================

lemma equilibrio_pick (h : List Color) (w : Nat) :
    (strategy_equilibrio_forcado h w).1 = Pick.red ∨
    (strategy_equilibrio_forcado h w).1 = Pick.black := by
  simp only [strategy_equilibrio_forcado]
  split_ifs <;> simp

lemma foldl_bestStepV2_cases (es : List (String × ℚ × Pick × ℚ)) :
    ∀ b : Pick × ℚ × String,
      es.foldl bestStepV2 b = b ∨
      ((es.foldl bestStepV2 b).1 = Pick.red ∨ (es.foldl bestStepV2 b).1 = Pick.black) := by
  induction es with
  | nil => intro b; exact Or.inl rfl
  | cons e tl ih =>
    intro b
    rw [List.foldl_cons]
    rcases ih (bestStepV2 b e) with hi | hi
    · rw [hi]
      unfold bestStepV2
      split_ifs with hc
      · exact Or.inr (by simpa using hc.1)
      · exact Or.inl rfl
    · exact Or.inr hi

lemma bestSigV2_color (es : List (String × ℚ × Pick × ℚ))
    (hpos : 0 < (bestSigV2 es).2.1) :
    (bestSigV2 es).1 = Pick.red ∨ (bestSigV2 es).1 = Pick.black := by
  rcases foldl_bestStepV2_cases es (Pick.skip, 0, "combined") with hc | hc
  · rw [bestSigV2, hc] at hpos
    norm_num at hpos
  · exact hc

/-- C10: the lenient combiner `combined_strategy_v2` never returns a skip
decision itself — on every history, including the empty one, its color is
exactly red or black and its confidence is at least 50 (skipping in this
variant happens only in the driver, when the returned confidence falls
below the `min_confidence` entry gate). -/
theorem claim10_v2_always_color (h : List Color) :
    ((combined_strategy_v2 h).1 = Pick.red ∨ (combined_strategy_v2 h).1 = Pick.black) ∧
    50 ≤ (combined_strategy_v2 h).2.1 := by
  simp only [combined_strategy_v2]
  split_ifs with h1 h2 h3 h4 h5 h6 h7
  · exact ⟨Or.inl rfl, by norm_num⟩
  · exact ⟨equilibrio_pick h 30, by norm_num⟩
  · exact ⟨Or.inl rfl, by norm_num⟩
  · refine ⟨Or.inl rfl, ?_⟩
    simp only
    exact le_min (by linarith) (by norm_num)
  · refine ⟨Or.inr rfl, ?_⟩
    simp only
    exact le_min (by linarith) (by norm_num)
  · refine ⟨bestSigV2_color _ (by linarith), by simp only; linarith⟩
  · exact ⟨Or.inl rfl, by norm_num⟩
  · exact ⟨Or.inr rfl, by norm_num⟩

end Blaze
